import Mathlib

/-!
Shallow embedding of the paged data-table controller of
`src/components/DataTable.tsx` (solid-dashboard).

The pure projection helpers (`deriveStatus`, `deriveRevenue`, `mapUser`),
the fetcher (`fetchUsers`), and the derived view values (`displayRows`,
`total`, `totalPages`, `hasLoaded`, `isFetching`, button disabled
conditions) are translated directly from the source file.

The reactive runtime (`createSignal`, `createResource`, `createEffect`)
is embedded as an explicit event-driven state machine on `CState`:
  * `createSignal` compares with `===`, so writing the current value back
    notifies nothing (no refetch);
  * `createResource` re-runs the fetcher when its source signal changes,
    remembers the promise of the latest run, and on settlement applies
    the outcome only when that promise is still the current one (stale
    settlements are dropped);
  * the `createEffect` at DataTable.tsx:190-193 copies each freshly
    resolved value into the `snapshot` signal, which is folded here into
    the successful-completion transition.
JavaScript numbers appearing here (ids, ages, counts, HTTP status) are
non-negative integers in this program and are embedded as `Nat`; the one
subtraction (`PAGE_SIZE - rows.length`, guarded by `Math.max(0, ·)`) is
embedded over `Int` to keep the guard visible.
-/

namespace DataTable

/-- Shape returned by the listing endpoint (`DummyUser` in the source);
`companyTitle` embeds the nested `company.title` field. -/
structure DummyUser where
  id : Nat
  firstName : String
  lastName : String
  email : String
  age : Nat
  role : String
  companyTitle : String
deriving DecidableEq, Repr

/-- Body of a decoded listing response (`ApiResponse` in the source). -/
structure ApiResponse where
  users : List DummyUser
  total : Nat
  skip : Nat
  limit : Nat
deriving DecidableEq, Repr

/-- A table row after mapping (`Row` in the source); `status` holds one of
"Active" | "Inactive" | "Pending". -/
structure Row where
  id : Nat
  name : String
  email : String
  role : String
  status : String
  revenue : String
deriving DecidableEq, Repr

def PAGE_SIZE : Nat := 8

/-- DataTable.tsx:79-86 — map the API role field to a display status. -/
def deriveStatus (apiRole : String) : String :=
  if apiRole = "admin" then "Active"
  else if apiRole = "moderator" then "Pending"
  else "Inactive"

/-- Grouping pass of `Number.prototype.toLocaleString("en-US")` on the
reversed digit list: a comma after every three digits from the right. -/
def groupThousandsRev : List Char → List Char
  | a :: b :: c :: d :: rest => a :: b :: c :: ',' :: groupThousandsRev (d :: rest)
  | l => l

/-- Embedding of `n.toLocaleString("en-US")` for a non-negative integer `n`: decimal
digits with thousands separators. -/
def toLocaleStringEnUS (n : Nat) : String :=
  String.mk (groupThousandsRev (Nat.toDigits 10 n).reverse).reverse

/-- DataTable.tsx:88-92 — deterministic revenue seeded from id and age. -/
def deriveRevenue (id age : Nat) : String :=
  let amount := id * 1340 + age * 210
  "$" ++ toLocaleStringEnUS amount

/-- DataTable.tsx:94-103 — project a remote user to a table row. -/
def mapUser (u : DummyUser) : Row :=
  { id := u.id
    name := u.firstName ++ " " ++ u.lastName
    email := u.email
    role := u.companyTitle
    status := deriveStatus u.role
    revenue := deriveRevenue u.id u.age }

/-- The `skip` query parameter of the request issued for `page`
(DataTable.tsx:110). -/
def requestSkip (page : Nat) : Nat := page * PAGE_SIZE

/-- The `limit` query parameter of every request (DataTable.tsx:111). -/
def requestLimit : Nat := PAGE_SIZE

/-- Result of a successful fetch: `{ rows, total }` (DataTable.tsx:109). -/
structure PageResult where
  rows : List Row
  total : Nat
deriving DecidableEq, Repr

/-- The single error the fetcher throws: `new Error("API error: " + status)`
(DataTable.tsx:114); the HTTP status is what the message captures. -/
inductive FetchError where
  | apiError (status : Nat)
deriving DecidableEq, Repr

/-- The message string of the thrown error. -/
def FetchError.message : FetchError → String
  | .apiError status => "API error: " ++ toString status

/-- An HTTP response as the fetcher observes it: a status code and (when the
body is consumed) a decoded `ApiResponse`. -/
structure HttpResponse where
  status : Nat
  body : ApiResponse
deriving DecidableEq, Repr

/-- The Fetch API field `Response.ok`: status in the inclusive range 200-299. -/
def HttpResponse.ok (r : HttpResponse) : Bool :=
  decide (200 ≤ r.status) && decide (r.status ≤ 299)

/-- DataTable.tsx:109-121 — the fetcher body, as a function of the HTTP
response it receives: throw on a non-ok status, otherwise map the users
and return `{ rows, total }`. -/
def fetchUsers (res : HttpResponse) : Except FetchError PageResult :=
  if res.ok then
    .ok { rows := res.body.users.map mapUser, total := res.body.total }
  else
    .error (.apiError res.status)

/-! ## The controller state machine

`DataTable()` (DataTable.tsx:173-316) holds a `page` signal, a
`createResource(page, fetchUsers)`, and a `snapshot` signal fed by a
`createEffect`.  The reactive runtime is embedded as an explicit state
plus an event-step function; `issued` is bookkeeping recording every
fetch ever started, so staleness can be stated about concrete fetches. -/

/-- The resource's `state` field: "unresolved" | "pending" | "ready" |
"refreshing" | "errored" (DataTable.tsx:22-23). -/
inductive ResState where
  | unresolved
  | pending
  | ready
  | refreshing
  | errored
deriving DecidableEq, Repr

/-- One issued fetch: the promise identity (`fid`, fresh per run of the
fetcher) and the page value the run was issued for. -/
structure Fetch where
  fid : Nat
  page : Nat
deriving DecidableEq, Repr

/-- The component's reactive state: the `page` signal, the `snapshot`
signal, the resource's state and error, and the resource's currently
tracked (latest) in-flight fetch. -/
structure CState where
  page : Nat
  snapshot : Option PageResult
  resState : ResState
  resError : Option FetchError
  current : Option Fetch
  nextFid : Nat
  issued : List Fetch
deriving DecidableEq, Repr

/-- DataTable.tsx:196 — `snapshot()?.rows ?? []`. -/
def displayRows (s : CState) : List Row :=
  match s.snapshot with
  | some r => r.rows
  | none => []

/-- DataTable.tsx:197 — `snapshot()?.total ?? 0`. -/
def total (s : CState) : Nat :=
  match s.snapshot with
  | some r => r.total
  | none => 0

/-- DataTable.tsx:198 — `Math.ceil(total / PAGE_SIZE)` on a non-negative
integer `total`, i.e. ceiling division (`totalPagesOf_eq_ceil` below
proves this equals the rational ceiling). -/
def totalPagesOf (t : Nat) : Nat := (t + (PAGE_SIZE - 1)) / PAGE_SIZE

def totalPages (s : CState) : Nat := totalPagesOf (total s)

/-- DataTable.tsx:199 — `snapshot() !== null`. -/
def hasLoaded (s : CState) : Bool := s.snapshot.isSome

/-- DataTable.tsx:200 — `!hasLoaded() || users.state === "refreshing" ||
users.state === "pending"`. -/
def isFetching (s : CState) : Bool :=
  !hasLoaded s || (s.resState == .refreshing) || (s.resState == .pending)

/-- DataTable.tsx:297 — the Prev button's `disabled` expression:
`page() === 0 || isFetching()`. -/
def prevDisabled (s : CState) : Bool := (s.page == 0) || isFetching s

/-- DataTable.tsx:304 — the Next button's `disabled` expression:
`page() >= totalPages() - 1 || isFetching()`.  In JS, `totalPages() - 1`
is `-1` when `totalPages() = 0` and the comparison is then always true;
truncated Nat subtraction gives the same boolean for every `page ≥ 0`. -/
def nextDisabled (s : CState) : Bool :=
  decide (totalPages s - 1 ≤ s.page) || isFetching s

/-- The pagination block is rendered only under `Show when={hasLoaded()}`
(DataTable.tsx:233) nested with `Show when={totalPages() > 1}`
(DataTable.tsx:290); a button click requires the block to be rendered. -/
def paginationShown (s : CState) : Bool :=
  hasLoaded s && decide (1 < totalPages s)

/-- DataTable.tsx:270 — the number of invisible padding rows:
`Math.max(0, PAGE_SIZE - displayRows().length)`. -/
def padCount (rowCount : Nat) : Int :=
  max 0 ((PAGE_SIZE : Int) - (rowCount : Int))

/-- The resource state entered when a new run of the fetcher starts:
"refreshing" when a previous value is retained, else "pending".  The only
reads of `users.state` in the component treat the two alike. -/
def fetchingState (s : CState) : ResState :=
  if s.snapshot.isSome then .refreshing else .pending

/-- A new run of the fetcher for page `p`: `createResource` remembers the
fresh promise as the current one (superseding any in-flight run). -/
def issue (s : CState) (p : Nat) : CState :=
  { s with
    page := p
    current := some ⟨s.nextFid, p⟩
    nextFid := s.nextFid + 1
    resState := fetchingState s
    issued := s.issued ++ [⟨s.nextFid, p⟩] }

/-- The operation `setPage n`: `createSignal` compares values with `===`, so writing the
current value back notifies no subscriber and the resource does not
re-run; a changed value re-runs the fetcher. -/
def applySetPage (s : CState) (n : Nat) : CState :=
  if n = s.page then s else issue s n

/-- Events of the embedded runtime: the renderer's entry points
(`setPage`, `refetch` from the Retry button, the two pagination button
clicks) and the settlement of an issued fetch's promise. -/
inductive Event where
  | setPage (n : Nat)
  | refetch
  | complete (f : Fetch) (r : PageResult)
  | fail (f : Fetch) (e : FetchError)
  | clickPrev
  | clickNext
deriving DecidableEq, Repr

/-- One step of the component.  A settlement is applied only when the
settling promise is still the resource's current one (`createResource`
drops superseded settlements); a successful application also runs the
`createEffect` of DataTable.tsx:190-193, copying the value into
`snapshot`.  Clicks act only when the button is rendered and enabled. -/
def step (s : CState) : Event → CState
  | .setPage n => applySetPage s n
  | .refetch => issue s s.page
  | .complete f r =>
    match s.current with
    | some g =>
      if g.fid = f.fid then
        { s with snapshot := some r, resState := .ready, resError := none,
                 current := none }
      else s
    | none => s
  | .fail f e =>
    match s.current with
    | some g =>
      if g.fid = f.fid then
        { s with resState := .errored, resError := some e, current := none }
      else s
    | none => s
  | .clickPrev =>
    if paginationShown s && !prevDisabled s then applySetPage s (s.page - 1)
    else s
  | .clickNext =>
    if paginationShown s && !nextDisabled s then applySetPage s (s.page + 1)
    else s

/-- The mount state: `page = 0` and `createResource` starts its first run
of the fetcher immediately. -/
def init : CState :=
  { page := 0, snapshot := none, resState := .pending, resError := none,
    current := some ⟨0, 0⟩, nextFid := 1, issued := [⟨0, 0⟩] }

/-- States reachable from mount by runtime events. -/
inductive Reachable : CState → Prop where
  | init : Reachable init
  | step (s : CState) (e : Event) : Reachable s → Reachable (step s e)

/-- Structural invariant: the tracked in-flight fetch was issued and was
issued for the current page; issued ids are below `nextFid` and distinct. -/
def Inv (s : CState) : Prop :=
  (∀ f, s.current = some f → f ∈ s.issued ∧ f.page = s.page) ∧
  (∀ f, f ∈ s.issued → f.fid < s.nextFid) ∧
  (∀ f g, f ∈ s.issued → g ∈ s.issued → f.fid = g.fid → f = g)

/-- Modelled from the spec: the remote listing endpoint (the external
collaborator of the external-interfaces section, not part of this
repository) serves the requested window of its `total` records, so a
request with the given `limit` and `skip` receives
`min limit (total - skip)` rows. -/
def serverRowCount (total skip limit : Nat) : Nat := min limit (total - skip)

/-! ## Concrete sample data for closed theorems -/

/-- A concrete remote user. -/
def ada : DummyUser :=
  { id := 1, firstName := "Ada", lastName := "Lovelace",
    email := "ada@example.com", age := 36, role := "admin",
    companyTitle := "Engineer" }

/-- The remote user of the spec's worked example: role "admin",
identity 5, age 30. -/
def grace : DummyUser :=
  { id := 5, firstName := "Grace", lastName := "Hopper",
    email := "grace@example.com", age := 30, role := "admin",
    companyTitle := "Admiral" }

/-- A concrete successful first page: 8 rows out of 20 members. -/
def page0Result : PageResult :=
  { rows := List.replicate 8 (mapUser ada), total := 20 }

/-- Reachable state: the mount fetch succeeded with `page0Result`, then
the Next button was clicked, so page 1's fetch is in flight. -/
def fetchingPage1 : CState :=
  step (step init (.complete ⟨0, 0⟩ page0Result)) .clickNext

/-- A successful page while the endpoint reports 100 members. -/
def page100Result : PageResult :=
  { rows := List.replicate 8 (mapUser ada), total := 100 }

/-- The page-5 fetch's result after the endpoint's total shrank to 16. -/
def page5Shrunk : PageResult :=
  { rows := List.replicate 8 (mapUser ada), total := 16 }

/-- Event trace: the user pages from 0 up to 5 while the endpoint reports
100 members (13 pages), then the page-5 fetch completes reporting only
16 members (2 pages). -/
def shrinkTrace : List Event :=
  [ .complete ⟨0, 0⟩ page100Result, .clickNext,
    .complete ⟨1, 1⟩ page100Result, .clickNext,
    .complete ⟨2, 2⟩ page100Result, .clickNext,
    .complete ⟨3, 3⟩ page100Result, .clickNext,
    .complete ⟨4, 4⟩ page100Result, .clickNext,
    .complete ⟨5, 5⟩ page5Shrunk ]

/-- Reachable state with `page = 5` but `totalPages() = 2`: the endpoint's
total shrank under the user, no fetch is in flight, and the resource is
ready. -/
def shrunkTotal : CState := shrinkTrace.foldl step init

/-! ## Basic lemmas about the step function -/

theorem issue_snapshot (s : CState) (p : Nat) : (issue s p).snapshot = s.snapshot := rfl

theorem applySetPage_snapshot (s : CState) (n : Nat) :
    (applySetPage s n).snapshot = s.snapshot := by
  unfold applySetPage
  split <;> rfl

theorem setPage_snapshot (s : CState) (n : Nat) :
    (step s (.setPage n)).snapshot = s.snapshot :=
  applySetPage_snapshot s n

theorem refetch_snapshot (s : CState) : (step s .refetch).snapshot = s.snapshot := rfl

theorem fail_snapshot (s : CState) (f : Fetch) (e : FetchError) :
    (step s (.fail f e)).snapshot = s.snapshot := by
  simp only [step]
  split
  · split <;> rfl
  · rfl

theorem complete_snapshot_cases (s : CState) (f : Fetch) (r : PageResult) :
    (step s (.complete f r)).snapshot = some r ∨
      step s (.complete f r) = s := by
  simp only [step]
  split
  · split
    · exact Or.inl rfl
    · exact Or.inr rfl
  · exact Or.inr rfl

theorem clickPrev_snapshot (s : CState) :
    (step s .clickPrev).snapshot = s.snapshot := by
  simp only [step]
  split
  · exact applySetPage_snapshot s (s.page - 1)
  · rfl

theorem clickNext_snapshot (s : CState) :
    (step s .clickNext).snapshot = s.snapshot := by
  simp only [step]
  split
  · exact applySetPage_snapshot s (s.page + 1)
  · rfl

theorem displayRows_congr {s t : CState} (h : s.snapshot = t.snapshot) :
    displayRows s = displayRows t := by
  unfold displayRows
  rw [h]

theorem totalPages_congr {s t : CState} (h : s.snapshot = t.snapshot) :
    totalPages s = totalPages t := by
  unfold totalPages total
  rw [h]

/-! ## The structural invariant holds in every reachable state -/

theorem Inv_init : Inv init := by
  refine ⟨fun f hf => ?_, fun f hf => ?_, fun f g hf hg hfg => ?_⟩
  · simp only [init] at hf
    injection hf with h
    subst h
    exact ⟨by simp [init], rfl⟩
  · simp only [init, List.mem_singleton] at hf
    subst hf
    exact Nat.zero_lt_one
  · simp only [init, List.mem_singleton] at hf hg
    rw [hf, hg]

theorem Inv_issue (s : CState) (p : Nat) (h : Inv s) : Inv (issue s p) := by
  obtain ⟨-, h2, h3⟩ := h
  refine ⟨fun f hf => ?_, fun f hf => ?_, fun f g hf hg hfg => ?_⟩
  · simp only [issue] at hf
    injection hf with h
    subst h
    exact ⟨by simp [issue], rfl⟩
  · simp only [issue, List.mem_append, List.mem_singleton] at hf
    rcases hf with hf | hf
    · exact Nat.lt_succ_of_lt (h2 f hf)
    · subst hf
      exact Nat.lt_succ_self _
  · simp only [issue, List.mem_append, List.mem_singleton] at hf hg
    rcases hf with hf | hf <;> rcases hg with hg | hg
    · exact h3 f g hf hg hfg
    · subst hg
      exact absurd hfg (Nat.ne_of_lt (h2 f hf))
    · subst hf
      exact absurd hfg.symm (Nat.ne_of_lt (h2 g hg))
    · rw [hf, hg]

theorem Inv_applySetPage (s : CState) (n : Nat) (h : Inv s) :
    Inv (applySetPage s n) := by
  unfold applySetPage
  split
  · exact h
  · exact Inv_issue s n h

theorem Inv_step (s : CState) (e : Event) (h : Inv s) : Inv (step s e) := by
  cases e with
  | setPage n => exact Inv_applySetPage s n h
  | refetch => exact Inv_issue s s.page h
  | complete f r =>
    obtain ⟨h1, h2, h3⟩ := h
    simp only [step]
    split
    · split
      · exact ⟨fun f' hf' => Option.noConfusion hf', h2, h3⟩
      · exact ⟨h1, h2, h3⟩
    · exact ⟨h1, h2, h3⟩
  | fail f e =>
    obtain ⟨h1, h2, h3⟩ := h
    simp only [step]
    split
    · split
      · exact ⟨fun f' hf' => Option.noConfusion hf', h2, h3⟩
      · exact ⟨h1, h2, h3⟩
    · exact ⟨h1, h2, h3⟩
  | clickPrev =>
    simp only [step]
    split
    · exact Inv_applySetPage s (s.page - 1) h
    · exact h
  | clickNext =>
    simp only [step]
    split
    · exact Inv_applySetPage s (s.page + 1) h
    · exact h

theorem Inv_of_Reachable (s : CState) (h : Reachable s) : Inv s := by
  induction h with
  | init => exact Inv_init
  | step s e _ ih => exact Inv_step s e ih

theorem Reachable_foldl (s : CState) (es : List Event) (h : Reachable s) :
    Reachable (es.foldl step s) := by
  induction es generalizing s with
  | nil => exact h
  | cons e es ih => exact ih (step s e) (Reachable.step s e h)

/-- A settlement of a fetch that was issued for a page other than the
current one is dropped: `createResource` tracks only the latest promise,
and (by `Inv`) the latest promise was issued for the current page. -/
theorem stale_complete_discarded (s : CState) (f : Fetch) (r : PageResult)
    (hInv : Inv s) (hf : f ∈ s.issued) (hp : f.page ≠ s.page) :
    step s (.complete f r) = s := by
  obtain ⟨h1, h2, h3⟩ := hInv
  simp only [step]
  split
  next g hc =>
    split
    next hfid =>
      obtain ⟨hg, hgp⟩ := h1 g hc
      have hfg : f = g := h3 f g hf hg hfid.symm
      rw [hfg] at hp
      exact absurd hgp hp
    next _ => rfl
  next => rfl

/-! ## Arithmetic of totalPages and padding -/

/-- The function `totalPagesOf` computes `Math.ceil(total / PAGE_SIZE)`: Nat ceiling
division agrees with the ceiling of the exact rational quotient. -/
theorem totalPagesOf_eq_ceil (t : Nat) :
    totalPagesOf t = ⌈(t : ℚ) / (PAGE_SIZE : ℚ)⌉₊ := by
  have hdef : totalPagesOf t = (t + 7) / 8 := rfl
  have hP : ((PAGE_SIZE : Nat) : ℚ) = 8 := by norm_num [PAGE_SIZE]
  rw [hdef, hP]
  have h8 : (0 : ℚ) < 8 := by norm_num
  have h1 := Nat.div_add_mod (t + 7) 8
  have h2 : (t + 7) % 8 < 8 := Nat.mod_lt _ (by norm_num)
  apply Nat.le_antisymm
  · have hle : ((t : ℚ) / 8) ≤ (⌈(t : ℚ) / 8⌉₊ : ℚ) := Nat.le_ceil _
    rw [div_le_iff₀ h8] at hle
    have ht : t ≤ ⌈(t : ℚ) / 8⌉₊ * 8 := by exact_mod_cast hle
    omega
  · rw [Nat.ceil_le, div_le_iff₀ h8]
    have ht : t ≤ ((t + 7) / 8) * 8 := by omega
    exact_mod_cast ht

theorem applySetPage_page (s : CState) (n : Nat) : (applySetPage s n).page = n := by
  unfold applySetPage
  split
  · next h => exact h.symm
  · rfl

/-! ## Claim theorems -/

/-- C1: the snapshot is mutated only by a successful fetch completing.
Starting a new fetch (`setPage`, `refetch`, either pagination click) or a
fetch failing leaves the snapshot untouched; consequently, whenever a
prior successful snapshot exists, `displayRows()` still returns exactly
its rows after any such event — an in-flight or failed fetch never makes
the renderer observe zero rows. -/
theorem snapshot_only_mutated_by_success :
    (∀ (s : CState) (n : Nat), (step s (.setPage n)).snapshot = s.snapshot) ∧
    (∀ s : CState, (step s .refetch).snapshot = s.snapshot) ∧
    (∀ s : CState, (step s .clickPrev).snapshot = s.snapshot) ∧
    (∀ s : CState, (step s .clickNext).snapshot = s.snapshot) ∧
    (∀ (s : CState) (f : Fetch) (e : FetchError),
      (step s (.fail f e)).snapshot = s.snapshot) ∧
    (∀ (s : CState) (r : PageResult), s.snapshot = some r →
      (∀ n : Nat, displayRows (step s (.setPage n)) = r.rows) ∧
      displayRows (step s .refetch) = r.rows ∧
      (∀ (f : Fetch) (e : FetchError), displayRows (step s (.fail f e)) = r.rows)) := by
  refine ⟨setPage_snapshot, refetch_snapshot, clickPrev_snapshot,
    clickNext_snapshot, fail_snapshot, ?_⟩
  intro s r hr
  have hd : displayRows s = r.rows := by
    unfold displayRows
    rw [hr]
  exact ⟨fun n => by rw [displayRows_congr (setPage_snapshot s n), hd],
    by rw [displayRows_congr (refetch_snapshot s), hd],
    fun f e => by rw [displayRows_congr (fail_snapshot s f e), hd]⟩

theorem snapshot_only_mutated_by_success_witness :
    fetchingPage1.snapshot = some page0Result ∧
    displayRows (step fetchingPage1 (.fail ⟨1, 1⟩ (.apiError 500))) = page0Result.rows := by
  refine ⟨by decide, ?_⟩
  exact ((snapshot_only_mutated_by_success.2.2.2.2.2 fetchingPage1 page0Result
    (by decide)).2.2) ⟨1, 1⟩ (.apiError 500)

/-- C2: stale-response rejection.  Fetch A is issued for page 0 at mount
and fetch B for page 1 after it; with both in flight, if A settles after
B then the snapshot holds B's result and A's settlement changes nothing.
In general, in any reachable state a completed fetch that was issued for
a page other than the current target page is discarded, never applied to
the snapshot. -/
theorem stale_response_rejected :
    (∀ rA rB : PageResult,
      (step (step (step init (.setPage 1)) (.complete ⟨1, 1⟩ rB))
          (.complete ⟨0, 0⟩ rA)).snapshot = some rB ∧
      step (step (step init (.setPage 1)) (.complete ⟨1, 1⟩ rB))
          (.complete ⟨0, 0⟩ rA)
        = step (step init (.setPage 1)) (.complete ⟨1, 1⟩ rB)) ∧
    (∀ (s : CState) (f : Fetch) (r : PageResult),
      Reachable s → f ∈ s.issued → f.page ≠ s.page →
      step s (.complete f r) = s) := by
  constructor
  · intro rA rB
    exact ⟨rfl, rfl⟩
  · intro s f r hs hf hp
    exact stale_complete_discarded s f r (Inv_of_Reachable s hs) hf hp

theorem stale_response_rejected_witness :
    step (step init (.setPage 1)) (.complete ⟨0, 0⟩ page0Result)
      = step init (.setPage 1) := by
  exact stale_response_rejected.2 (step init (.setPage 1)) ⟨0, 0⟩ page0Result
    (Reachable.step init (.setPage 1) Reachable.init) (by decide) (by decide)

/-- C3: for every remote row, the projection computes the tier label
"Active" when the role is "admin", "Pending" when it is "moderator", and
"Inactive" for any other role; the derived metric is
`identity * 1340 + age * 210` rendered with a leading "$" and en-US
thousands grouping; and the display name joins first and last name with a
single space. -/
theorem mapUser_projection (u : DummyUser) :
    (u.role = "admin" → (mapUser u).status = "Active") ∧
    (u.role = "moderator" → (mapUser u).status = "Pending") ∧
    (u.role ≠ "admin" → u.role ≠ "moderator" → (mapUser u).status = "Inactive") ∧
    (mapUser u).revenue = "$" ++ toLocaleStringEnUS (u.id * 1340 + u.age * 210) ∧
    (mapUser u).name = u.firstName ++ " " ++ u.lastName := by
  refine ⟨fun h => ?_, fun h => ?_, fun h1 h2 => ?_, rfl, rfl⟩
  · show deriveStatus u.role = "Active"
    rw [h]
    decide
  · show deriveStatus u.role = "Pending"
    rw [h]
    decide
  · show deriveStatus u.role = "Inactive"
    unfold deriveStatus
    rw [if_neg h1, if_neg h2]

theorem mapUser_projection_witness :
    (mapUser ada).status = "Active" ∧
    (mapUser { ada with role := "moderator" }).status = "Pending" ∧
    (mapUser { ada with role := "user" }).status = "Inactive" ∧
    (mapUser ada).revenue = "$" ++ toLocaleStringEnUS (ada.id * 1340 + ada.age * 210) := by
  exact ⟨(mapUser_projection ada).1 rfl,
    (mapUser_projection _).2.1 rfl,
    (mapUser_projection _).2.2.1 (by decide) (by decide),
    (mapUser_projection ada).2.2.2.1⟩

/-- C4 counterexample: the spec's worked example is wrong.  For role
"admin", identity 5, age 30, the derived metric is
5 * 1340 + 30 * 210 = 13000, so the metric string is "$13,000" — not
"$9,000" as claimed. -/
theorem projection_example_value :
    (mapUser grace).status = "Active" ∧
    (mapUser grace).revenue = "$13,000" ∧
    (mapUser grace).revenue ≠ "$9,000" := by
  decide

/-- C4 (amended): the RemoteRow-to-DisplayRow mapping is a pure function —
equal inputs always yield the same tier label, metric string, and display
name — and the input with role "admin", identity 5, age 30 maps to tier
"Active" and metric string "$13,000". -/
theorem projection_deterministic :
    (∀ u v : DummyUser, u = v → mapUser u = mapUser v) ∧
    (mapUser grace).status = "Active" ∧
    (mapUser grace).revenue = "$13,000" := by
  exact ⟨fun u v h => by rw [h], by decide, by decide⟩

theorem projection_deterministic_witness :
    mapUser grace = mapUser grace ∧ (mapUser grace).status = "Active" :=
  ⟨projection_deterministic.1 grace grace rfl, projection_deterministic.2.1⟩

/-- C5 counterexample, refuting each part of the claim at concrete
reachable states.  (i) In `fetchingPage1` (first page loaded, page 1's
fetch in flight) the Prev control is disabled although page ≠ 0, and the
Next control is disabled although page ≠ totalPages() - 1: both disabled
expressions also contain `isFetching()`.  (ii) In `shrunkTotal` (the
endpoint's total shrank under the user: page 5 of now 2 pages, resource
ready, nothing in flight) the Next control is disabled although
page ≠ totalPages() - 1: the code tests `page ≥ totalPages() - 1`, not
equality.  (iii) From that same state an ENABLED Prev click transitions
the page to 4 ≥ totalPages() = 2, so "never transitions to a value
≥ totalPages()" fails in a reachable state; and (iv) a bare `setPage`
(whose only call sites in the component are the boundary controls) is not
bounds-checked by the controller at all: from mount, `setPage 5` moves the
page to 5 ≥ totalPages() = 0. -/
theorem pagination_claim_refuted :
    (Reachable fetchingPage1 ∧ fetchingPage1.page ≠ 0 ∧
      prevDisabled fetchingPage1 = true ∧
      fetchingPage1.page ≠ totalPages fetchingPage1 - 1 ∧
      nextDisabled fetchingPage1 = true) ∧
    (Reachable shrunkTotal ∧ isFetching shrunkTotal = false ∧
      shrunkTotal.page ≠ totalPages shrunkTotal - 1 ∧
      nextDisabled shrunkTotal = true) ∧
    (prevDisabled shrunkTotal = false ∧
      (step shrunkTotal .clickPrev).page = 4 ∧
      totalPages (step shrunkTotal .clickPrev) = 2 ∧
      ¬ (step shrunkTotal .clickPrev).page < totalPages (step shrunkTotal .clickPrev)) ∧
    ((step init (.setPage 5)).page = 5 ∧ totalPages (step init (.setPage 5)) = 0) := by
  refine ⟨⟨?_, by decide, by decide, by decide, by decide⟩,
    ⟨?_, by decide, by decide, by decide⟩,
    ⟨by decide, by decide, by decide, by decide⟩,
    ⟨by decide, by decide⟩⟩
  · exact Reachable.step _ .clickNext
      (Reachable.step _ (.complete ⟨0, 0⟩ page0Result) Reachable.init)
  · exact Reachable_foldl init shrinkTrace Reachable.init

/-- C5 (amended): the page is a natural, so never below 0, and from every
state whose page is in range (`page < totalPages()`), a boundary-control
click — the component's only `setPage` call sites — keeps
`page < totalPages()`.  The boundary controls are disabled exactly when
the code's boundary condition holds OR a fetch is in flight: prev iff
`page == 0 ∨ isFetching()`, next iff
`page ≥ totalPages() - 1 ∨ isFetching()`. -/
theorem pagination_bounds :
    (∀ s : CState, prevDisabled s = ((s.page == 0) || isFetching s)) ∧
    (∀ s : CState,
      nextDisabled s = (decide (totalPages s - 1 ≤ s.page) || isFetching s)) ∧
    (∀ s : CState, s.page < totalPages s →
      (step s .clickPrev).page < totalPages (step s .clickPrev) ∧
      (step s .clickNext).page < totalPages (step s .clickNext)) := by
  refine ⟨fun s => rfl, fun s => rfl, fun s hp => ⟨?_, ?_⟩⟩
  · rw [totalPages_congr (clickPrev_snapshot s)]
    simp only [step]
    split
    · rw [applySetPage_page]
      exact lt_of_le_of_lt (Nat.sub_le _ _) hp
    · exact hp
  · rw [totalPages_congr (clickNext_snapshot s)]
    simp only [step]
    split
    · next hcond =>
      rw [applySetPage_page]
      have hnd : nextDisabled s = false := by
        have h2 := hcond
        simp only [Bool.and_eq_true, Bool.not_eq_true'] at h2
        exact h2.2
      have hbound : ¬ (totalPages s - 1 ≤ s.page) := by
        intro hle
        simp [nextDisabled, hle] at hnd
      omega
    · exact hp

theorem pagination_bounds_witness :
    fetchingPage1.page < totalPages fetchingPage1 ∧
    (step fetchingPage1 .clickNext).page < totalPages (step fetchingPage1 .clickNext) := by
  exact ⟨by decide, (pagination_bounds.2.2 fetchingPage1 (by decide)).2⟩

/-- C6: with no prior snapshot, the in-flight fetch failing leaves
`displayRows()` empty and a non-none error, and the retry action
(`refetch`) then issues a fetch for the same page the failed fetch was
issued for. -/
theorem first_load_failure (s : CState) (f : Fetch) (e : FetchError)
    (hsnap : s.snapshot = none) (hcur : s.current = some f)
    (hpg : f.page = s.page) :
    displayRows (step s (.fail f e)) = [] ∧
    (step s (.fail f e)).resError = some e ∧
    ∃ g : Fetch, (step (step s (.fail f e)) .refetch).current = some g ∧
      g.page = f.page := by
  have hstep : step s (.fail f e) =
      { s with resState := .errored, resError := some e, current := none } := by
    simp only [step, hcur]
    simp
  refine ⟨?_, ?_, ⟨⟨s.nextFid, s.page⟩, ?_, hpg.symm⟩⟩
  · rw [hstep]
    unfold displayRows
    simp only [hsnap]
  · rw [hstep]
  · rw [hstep]
    rfl

theorem first_load_failure_witness :
    displayRows (step init (.fail ⟨0, 0⟩ (.apiError 500))) = [] ∧
    (step init (.fail ⟨0, 0⟩ (.apiError 500))).resError = some (.apiError 500) := by
  have h := first_load_failure init ⟨0, 0⟩ (.apiError 500) rfl rfl rfl
  exact ⟨h.1, h.2.1⟩

/-- C7: every response with a status outside the 2xx range makes
`fetchUsers` fail — it never produces a PageResult — and the resulting
error captures the HTTP status code (the thrown message is
"API error: <status>"). -/
theorem non2xx_fetch_fails (res : HttpResponse)
    (h : ¬ (200 ≤ res.status ∧ res.status ≤ 299)) :
    fetchUsers res = .error (.apiError res.status) ∧
    (∀ p : PageResult, fetchUsers res ≠ .ok p) ∧
    FetchError.message (.apiError res.status)
      = "API error: " ++ toString res.status := by
  have hok : res.ok = false := by
    unfold HttpResponse.ok
    by_cases h1 : 200 ≤ res.status
    · have h2 : ¬ res.status ≤ 299 := fun h2 => h ⟨h1, h2⟩
      simp [h1, h2]
    · simp [h1]
  have h1 : fetchUsers res = .error (.apiError res.status) := by
    unfold fetchUsers
    rw [hok]
    rfl
  exact ⟨h1, fun p hp => by rw [h1] at hp; exact Except.noConfusion hp, rfl⟩

theorem non2xx_fetch_fails_witness :
    fetchUsers { status := 404, body := { users := [], total := 0, skip := 0, limit := 8 } }
      = .error (.apiError 404) := by
  exact (non2xx_fetch_fails _ (by decide)).1

/-- C8: `totalPages()` equals the ceiling of `total() / pageSize` with
pageSize fixed at 8; for total = 20 it is 3; the request for the third
page asks for 8 rows at offset 16 and the endpoint then returns exactly
4 data rows; and the renderer pads with `max(0, 8 - rowCount)`
placeholder rows, which brings every page of at most 8 rows to exactly
8 rendered slots. -/
theorem page_size_arithmetic :
    PAGE_SIZE = 8 ∧
    (∀ t : Nat, totalPagesOf t = ⌈(t : ℚ) / (PAGE_SIZE : ℚ)⌉₊) ∧
    totalPagesOf 20 = 3 ∧
    requestSkip 2 = 16 ∧
    serverRowCount 20 (requestSkip 2) requestLimit = 4 ∧
    padCount 4 = 4 ∧
    (∀ n : Nat, n ≤ PAGE_SIZE → (n : Int) + padCount n = (PAGE_SIZE : Int)) := by
  refine ⟨rfl, totalPagesOf_eq_ceil, by decide, by decide, by decide, by decide,
    fun n hn => ?_⟩
  have hn8 : n ≤ 8 := hn
  have hmax : max (0 : Int) ((PAGE_SIZE : Int) - (n : Int))
      = (PAGE_SIZE : Int) - (n : Int) := by
    apply max_eq_right
    simp only [PAGE_SIZE]
    omega
  simp only [padCount, hmax, PAGE_SIZE]
  omega

theorem page_size_arithmetic_witness :
    ((4 : Nat) : Int) + padCount 4 = (PAGE_SIZE : Int) ∧ totalPagesOf 20 = 3 := by
  exact ⟨page_size_arithmetic.2.2.2.2.2.2 4 (by decide),
    page_size_arithmetic.2.2.1⟩

/-- C9: writing the current page back with `setPage` is a no-op — the
state is unchanged, so no new fetch starts — while writing a different
page issues exactly one new fetch, for that page (value comparison on the
page signal). -/
theorem setPage_same_page_noop :
    (∀ s : CState, step s (.setPage s.page) = s) ∧
    (∀ (s : CState) (n : Nat), n ≠ s.page →
      (step s (.setPage n)).current = some ⟨s.nextFid, n⟩ ∧
      (step s (.setPage n)).nextFid = s.nextFid + 1 ∧
      (step s (.setPage n)).issued = s.issued ++ [⟨s.nextFid, n⟩] ∧
      (step s (.setPage n)).page = n) := by
  constructor
  · intro s
    show applySetPage s s.page = s
    unfold applySetPage
    rw [if_pos rfl]
  · intro s n h
    have hs : step s (.setPage n) = issue s n := by
      show applySetPage s n = issue s n
      unfold applySetPage
      rw [if_neg h]
    rw [hs]
    exact ⟨rfl, rfl, rfl, rfl⟩

theorem setPage_same_page_noop_witness :
    step init (.setPage 0) = init ∧ (step init (.setPage 1)).page = 1 := by
  exact ⟨setPage_same_page_noop.1 init,
    (setPage_same_page_noop.2 init 1 (by decide)).2.2.2⟩

/-- C10: `isFetching()` equals (no snapshot yet) OR (resource pending or
refreshing); in particular it is true in every state without a snapshot —
including the state reached when the first fetch fails, where the
resource is errored and no request is in flight — so at the public
interface `isFetching() = true` does not imply an in-flight request. -/
theorem isFetching_without_inflight :
    (∀ s : CState,
      isFetching s
        = (s.snapshot.isNone || (s.resState == .pending) || (s.resState == .refreshing))) ∧
    (∀ s : CState, s.snapshot = none → isFetching s = true) ∧
    isFetching (step init (.fail ⟨0, 0⟩ (.apiError 500))) = true ∧
    (step init (.fail ⟨0, 0⟩ (.apiError 500))).current = none ∧
    (step init (.fail ⟨0, 0⟩ (.apiError 500))).resState = .errored := by
  refine ⟨fun s => ?_, fun s h => ?_, by decide, by decide, by decide⟩
  · unfold isFetching hasLoaded
    cases s.snapshot <;> cases s.resState <;> rfl
  · unfold isFetching hasLoaded
    rw [h]
    rfl

theorem isFetching_without_inflight_witness :
    isFetching (step init (.fail ⟨0, 0⟩ (.apiError 500))) = true := by
  exact isFetching_without_inflight.2.1 _ (by decide)

end DataTable
